import Mathlib

/-
  Shallow embedding of spark_room.py (joelwking/ansible-spark).

  The module drives four REST calls (list rooms, create room, add member,
  send message) against the Cisco Spark API and accumulates an additive
  error tally.  Network interaction is modelled by an oracle: every call
  site receives the outcome the network would have produced (a reply with
  a status code and an optionally-parseable JSON body, or a transport
  failure), and the Lean functions reproduce exactly what the Python code
  does with that outcome.

  Python dynamic-typing notes reflected in the model:
  - requests.ConnectionError in genericPOST makes it return (False, e);
    Python False is numerically 0, so adding it to the tally adds 0.
    Status.sentinelFalse with pyInt = 0 models this.
  - Truthiness: None and the empty string are falsy; if msg: skips the
    empty string.  optStrTruthy and JValue.truthy model this.
  - self.response["id"] on a non-dict raises; PyResult.fault models an
    uncaught exception escaping the module.
-/

namespace SparkRoom

/-- listPrefixOf a b is true when a is a prefix of b (Python startswith on char lists). -/
def listPrefixOf : List Char → List Char → Bool
  | [], _ => true
  | _ :: _, [] => false
  | a :: as, b :: bs => a == b && listPrefixOf as bs

/-- listContains needle hay is true when needle occurs contiguously inside hay. -/
def listContains (needle : List Char) : List Char → Bool
  | [] => listPrefixOf needle []
  | h :: t => listPrefixOf needle (h :: t) || listContains needle t

/-- strIn needle hay models the Python expression needle in hay on strings (substring test). -/
def strIn (needle hay : String) : Bool :=
  listContains needle.toList hay.toList

/-- JSON values, as produced by json.loads and consumed by json.dumps. -/
inductive JValue where
  | null : JValue
  | str (s : String) : JValue
  | boolean (b : Bool) : JValue
  | num (n : Int) : JValue
  | obj (fields : List (String × JValue)) : JValue
  | arr (elems : List JValue) : JValue

/-- Python truthiness of a JSON value. -/
def JValue.truthy : JValue → Bool
  | .null => false
  | .str s => !(s == "")
  | .boolean b => b
  | .num n => !(n == 0)
  | .obj fields => !fields.isEmpty
  | .arr elems => !elems.isEmpty

/-- Lookup of a key in a JSON object field list (Python dict indexing, first binding wins). -/
def jLookup (k : String) : List (String × JValue) → Option JValue
  | [] => none
  | q :: t => if q.1 = k then some q.2 else jLookup k t

/-- hasKey l k tells whether the JSON object field list l binds key k. -/
def hasKey (l : List (String × JValue)) (k : String) : Bool :=
  match l with
  | [] => false
  | q :: t => if q.1 = k then true else hasKey t k

/-- jGet v k extracts v[k] when v is a JSON object holding key k; none otherwise
(in Python the otherwise-case raises KeyError or TypeError). -/
def jGet (v : JValue) (k : String) : Option JValue :=
  match v with
  | .obj fields => jLookup k fields
  | _ => none

/-- optToJ lifts an optional JSON value to JSON, sending Python None to null. -/
def optToJ : Option JValue → JValue
  | none => .null
  | some v => v

/-- Python truthiness of an optional JSON value (None is falsy). -/
def optJTruthy : Option JValue → Bool
  | none => false
  | some v => v.truthy

/-- Python truthiness of an optional string: None and the empty string are falsy. -/
def optStrTruthy : Option String → Bool
  | none => false
  | some s => !(s == "")

/-- One entry of the items array returned by the rooms listing. -/
structure Room where
  id : String
  title : String
deriving DecidableEq

/-- Values the instance attribute self.response can hold: a parsed JSON body,
the synthesized ValueError diagnostic string, or a caught transport exception. -/
inductive Response where
  | json (v : JValue) : Response
  | valueError (s : String) : Response
  | exc (e : String) : Response

/-- A status value as returned by genericPOST: either an HTTP status code
(r.status_code) or the Python literal False returned on ConnectionError. -/
inductive Status where
  | httpCode (n : Nat) : Status
  | sentinelFalse : Status
deriving DecidableEq

/-- Numeric value Python uses when the status is added to the tally:
False is numerically 0. -/
def Status.pyInt : Status → Nat
  | .httpCode n => n
  | .sentinelFalse => 0

/-- Outcome of one POST request as seen by genericPOST: a reply whose body
either parses to JSON (parsed = some v) or raises ValueError in json.loads
(parsed = none, with the reason phrase of httplib.responses), or a
requests.ConnectionError. -/
inductive PostOutcome where
  | reply (status : Nat) (parsed : Option JValue) (reason : String) : PostOutcome
  | connError (err : String) : PostOutcome

/-- Outcome of the GET in list_rooms: a reply whose body parses and holds an
items array, a reply whose body raises ValueError, or a ConnectionError. -/
inductive ListRoomsOutcome where
  | success (status : Nat) (items : List Room) : ListRoomsOutcome
  | badBody (status : Nat) : ListRoomsOutcome
  | transportFail : ListRoomsOutcome

/-- Result of running Python code that may raise an uncaught exception. -/
inductive PyResult (α : Type) where
  | ok (a : α) : PyResult α
  | fault (msg : String) : PyResult α

/-- Mutable state of the Connection object: self.rooms, self.code (the error
tally), self.changed and self.response. -/
structure Connection where
  rooms : Option (List Room)
  code : Nat
  changed : Bool
  response : Option Response

/-- Connection.__init__: rooms None, tally 0, changed False, response None. -/
def Connection.init : Connection :=
  { rooms := none, code := 0, changed := false, response := none }

/-- self.response synthesized when json.loads raises on a reply body:
"ValueError: %s %s" with the status code and reason phrase. -/
def synthMsg (st : Nat) (reason : String) : String :=
  "ValueError: " ++ toString st ++ " " ++ reason

/-- Connection.set_returncode: on 200 set changed and return the code; on any
other value add its numeric value to the running tally and return None. -/
def Connection.set_returncode (c : Connection) (rc : Status) : Connection × Option Status :=
  if rc = Status.httpCode 200 then
    ({ c with changed := true }, some rc)
  else
    ({ c with code := c.code + rc.pyInt }, none)

/-- Connection.genericPOST: on ConnectionError return (False, e) without
storing a response; otherwise store the parsed body (or the synthesized
ValueError string) in self.response and return it with r.status_code.
The request body is carried for fidelity; the oracle decides the outcome. -/
def Connection.genericPOST (c : Connection) (o : PostOutcome) (body : JValue) :
    Connection × Status × Response :=
  match o with
  | .connError e => (c, .sentinelFalse, .exc e)
  | .reply st parsed reason =>
    let resp : Response :=
      match parsed with
      | some v => .json v
      | none => .valueError (synthMsg st reason)
    ({ c with response := some resp }, .httpCode st, resp)

/-- Connection.list_rooms: on ConnectionError return (404, None) leaving
self.rooms alone; otherwise set self.rooms to the items of the parsed body,
or to None when json.loads raises, and return r.status_code with it. -/
def Connection.list_rooms (c : Connection) (o : ListRoomsOutcome) :
    Connection × Nat × Option (List Room) :=
  match o with
  | .transportFail => (c, 404, none)
  | .success st items => ({ c with rooms := some items }, st, some items)
  | .badBody st => ({ c with rooms := none }, st, none)

/-- Connection.get_room_id: when self.rooms is truthy (neither None nor the
empty list), return the id of the first room whose title has the given title
as a substring; None when no room matches or rooms is falsy. -/
def Connection.get_room_id (c : Connection) (title : String) : Option String :=
  match c.rooms with
  | some rooms =>
    if rooms.isEmpty then none
    else
      match rooms.find? (fun r => strIn title r.title) with
      | some r => some r.id
      | none => none
  | none => none

/-- Payload built by Connection.send_message: roomId always, text only when
msg is truthy, file only when filename is truthy. -/
def sendMessagePayload (room_id : Option JValue) (msg filename : Option String) :
    List (String × JValue) :=
  let payload := [("roomId", optToJ room_id)]
  let payload := if optStrTruthy msg then payload ++ [("text", JValue.str (msg.getD ""))] else payload
  if optStrTruthy filename then payload ++ [("file", JValue.str (filename.getD ""))] else payload

/-- Connection.send_message: POST the payload to the messages endpoint, store
the returned body in self.response, and return (set_returncode rc, response). -/
def Connection.send_message (c : Connection) (o : PostOutcome) (room_id : Option JValue)
    (msg filename : Option String) : Connection × Option Status × Response :=
  let payload := JValue.obj (sendMessagePayload room_id msg filename)
  let r := c.genericPOST o payload
  let c2 := { r.1 with response := some r.2.2 }
  let s := c2.set_returncode r.2.1
  (s.1, s.2, r.2.2)

/-- Connection.create_room: POST the title; on status 200 call set_returncode
and return self.response["id"] — which raises when the stored response is not
a JSON object with key id; on any other status return set_returncode rc,
which is None for every non-200 status. -/
def Connection.create_room (c : Connection) (o : PostOutcome) (title : String) :
    PyResult (Connection × Option JValue) :=
  let body := JValue.obj [("title", JValue.str title)]
  let r := c.genericPOST o body
  let c2 := { r.1 with response := some r.2.2 }
  if r.2.1 = Status.httpCode 200 then
    let s := c2.set_returncode r.2.1
    match r.2.2 with
    | .json v =>
      match jGet v "id" with
      | some idv => .ok (s.1, some idv)
      | none => .fault "KeyError or TypeError: no id field in stored response"
    | _ => .fault "TypeError: string indices must be integers"
  else
    let s := c2.set_returncode r.2.1
    .ok (s.1, none)

/-- Body built by Connection.add_room_member; note the source sends the
string "false" for isModerator, not a JSON boolean. -/
def addMemberBody (room_id : Option JValue) (email : String) : List (String × JValue) :=
  [("personEmail", JValue.str email), ("isModerator", JValue.str "false"),
   ("roomId", optToJ room_id)]

/-- Connection.add_room_member: POST the membership body; a 403 reply means
the user is already a participant and is returned directly, bypassing
set_returncode; every other status goes through set_returncode. -/
def Connection.add_room_member (c : Connection) (o : PostOutcome) (room_id : Option JValue)
    (email : String) : Connection × Option Status :=
  let body := JValue.obj (addMemberBody room_id email)
  let r := c.genericPOST o body
  let c2 := { r.1 with response := some r.2.2 }
  if r.2.1 = Status.httpCode 403 then
    (c2, some (Status.httpCode 403))
  else
    c2.set_returncode r.2.1

/-- Final report of main: exit_json with changed and content on a zero tally,
fail_json with the last response as msg otherwise. -/
inductive Report where
  | exitJson (changed : Bool) (content : Option Response) : Report
  | failJson (msg : Option Response) : Report

/-- The exit decision at the end of main: spark.code == 0 picks exit_json. -/
def finalReport (c : Connection) : Report :=
  if c.code = 0 then .exitJson c.changed c.response else .failJson c.response

/-- Module parameters relevant to the driver (room, text, filename, members). -/
structure Params where
  room : String
  text : Option String
  filename : Option String
  members : Option String

/-- Network outcomes for the up-to-four requests one invocation can issue. -/
structure Oracle where
  listO : ListRoomsOutcome
  createO : PostOutcome
  memberO : PostOutcome
  messageO : PostOutcome

/-- The driver main: list rooms, resolve the room id by title, create the room
when resolution is falsy, then conditionally add a member and send a message,
and finally report by the tally.  A fault in create_room aborts the run. -/
def main (p : Params) (o : Oracle) : PyResult (Connection × Report) :=
  let spark := Connection.init
  let spark := (spark.list_rooms o.listO).1
  let room_id := (spark.get_room_id p.room).map JValue.str
  let step :=
    if optJTruthy room_id then PyResult.ok (spark, room_id)
    else spark.create_room o.createO p.room
  match step with
  | .fault m => .fault m
  | .ok a =>
    let spark := a.1
    let room_id := a.2
    let spark :=
      if optStrTruthy p.members then
        (spark.add_room_member o.memberO room_id (p.members.getD "")).1
      else spark
    let spark :=
      if optStrTruthy p.text || optStrTruthy p.filename then
        (spark.send_message o.messageO room_id p.text p.filename).1
      else spark
    .ok (spark, finalReport spark)

/-- Error tally after a completed (non-faulting) invocation. -/
def mainTally (p : Params) (o : Oracle) : Option Nat :=
  match main p o with
  | .ok a => some a.1.code
  | .fault _ => none

/-- Changed flag after a completed invocation. -/
def mainChanged (p : Params) (o : Oracle) : Option Bool :=
  match main p o with
  | .ok a => some a.1.changed
  | .fault _ => none

/-- Last stored response after a completed invocation. -/
def mainResponse (p : Params) (o : Oracle) : Option (Option Response) :=
  match main p o with
  | .ok a => some a.1.response
  | .fault _ => none

/-- Report of a completed invocation. -/
def mainReport (p : Params) (o : Oracle) : Option Report :=
  match main p o with
  | .ok a => some a.2
  | .fault _ => none

/-- Whether a report took the exit_json (success) path. -/
def Report.isSuccess : Report → Bool
  | .exitJson _ _ => true
  | .failJson _ => false

/-- Concrete invocation for the transport-failure scenario: a member is to be
added and a text message sent to an existing room. -/
def pC1 : Params :=
  { room := "foobar", text := some "hello", filename := none, members := some "joe@x.com" }

/-- Body of the successful message POST in the transport-failure scenario. -/
def msgBodyC1 : JValue := JValue.obj [("id", JValue.str "m1")]

/-- Network outcomes for the transport-failure scenario: the room listing and
the message POST succeed with HTTP 200, while the membership POST suffers a
connection-refused transport failure. -/
def oC1 : Oracle :=
  { listO := .success 200 [⟨"roomid1", "my foobar room"⟩],
    createO := .reply 200 (some (.obj [("id", .str "unused")])) "OK",
    memberO := .connError "ConnectionError: refused",
    messageO := .reply 200 (some msgBodyC1) "OK" }

/-- Concrete invocation for the final-report scenario: the room already
exists and no member or message is requested. -/
def pC2 : Params := { room := "r", text := none, filename := none, members := none }

/-- Network outcomes for the final-report scenario: only the listing happens. -/
def oC2 : Oracle :=
  { listO := .success 200 [⟨"id1", "room r"⟩],
    createO := .reply 200 none "OK",
    memberO := .reply 200 none "OK",
    messageO := .reply 200 none "OK" }

/-- Final connection state of the final-report scenario. -/
def cC2 : Connection :=
  { rooms := some [⟨"id1", "room r"⟩], code := 0, changed := false, response := none }

/-- First room of the lookup scenario; its title does not contain beta. -/
def roomA : Room := ⟨"i1", "alpha"⟩

/-- Second room of the lookup scenario; its title contains beta. -/
def roomB : Room := ⟨"i2", "beta room"⟩

/-- Connection that has listed the two lookup-scenario rooms. -/
def cC5two : Connection := { Connection.init with rooms := some [roomA, roomB] }

/-- Response body with an id field for the room-creation scenarios. -/
def bodyC4 : JValue := JValue.obj [("id", JValue.str "abc123")]

/-- Response body with an id field for the unsafe-extraction scenario. -/
def bodyC10 : JValue := JValue.obj [("id", JValue.str "xyz")]

/-- Helper: find? returns the head of the first matching suffix when every
earlier element fails the predicate. -/
theorem find_first_match (p : Room → Bool) (r : Room) (post : List Room) (hr : p r = true) :
    ∀ pre : List Room, (∀ q ∈ pre, p q = false) → (pre ++ r :: post).find? p = some r := by
  intro pre
  induction pre with
  | nil =>
    intro _
    rw [List.nil_append]
    exact List.find?_cons_of_pos _ hr
  | cons a as ih =>
    intro hpre
    have ha : p a = false := hpre a (List.mem_cons_self a as)
    rw [List.cons_append, List.find?_cons_of_neg _ (by simp [ha])]
    exact ih (fun q hq => hpre q (List.mem_cons_of_mem a hq))

/-- Helper: a list with an element after the prefix is not empty. -/
theorem isEmpty_append_cons (pre post : List Room) (r : Room) :
    (pre ++ r :: post).isEmpty = false := by
  cases pre <;> rfl

/-- Claim C5: get_room_id returns the id of the first listed room whose title
contains the requested title as a substring, none when no title contains it,
and always none when no rooms were successfully listed. -/
theorem c5_get_room_id_first_match : ∀ (c : Connection) (title : String),
    (c.rooms = none → c.get_room_id title = none) ∧
    (∀ rs, c.rooms = some rs → (∀ q ∈ rs, strIn title q.title = false) →
      c.get_room_id title = none) ∧
    (∀ rs pre post r, c.rooms = some rs → rs = pre ++ r :: post →
      strIn title r.title = true → (∀ q ∈ pre, strIn title q.title = false) →
      c.get_room_id title = some r.id) := by
  intro c title
  refine ⟨?_, ?_, ?_⟩
  · intro h
    simp [Connection.get_room_id, h]
  · intro rs h hall
    have hf : rs.find? (fun q => strIn title q.title) = none :=
      List.find?_eq_none.mpr (fun q hq => by simp [hall q hq])
    simp [Connection.get_room_id, h, hf]
  · intro rs pre post r h hsplit hr hpre
    subst hsplit
    have hf := find_first_match (fun q => strIn title q.title) r post hr pre hpre
    simp [Connection.get_room_id, h, hf, isEmpty_append_cons]

/-- Witness for C5: a fresh connection resolves nothing, and with rooms
alpha and beta room listed, looking up beta returns the id of the second. -/
theorem c5_get_room_id_first_match_witness :
    Connection.init.get_room_id "beta" = none ∧ cC5two.get_room_id "beta" = some "i2" := by
  constructor
  · exact (c5_get_room_id_first_match Connection.init "beta").1 rfl
  · exact (c5_get_room_id_first_match cC5two "beta").2.2 [roomA, roomB] [roomA] [] roomB
      rfl rfl (by decide) (by decide)

/-- Claim C9: the room-listing step never touches the error tally or the
changed flag, whatever its outcome, and get_room_id reads only the stored
room list, so neither does room resolution. -/
theorem c9_listing_and_lookup_frame : ∀ (c : Connection) (o : ListRoomsOutcome)
    (title : String) (n : Nat) (b : Bool),
    ((c.list_rooms o).1.code = c.code) ∧
    ((c.list_rooms o).1.changed = c.changed) ∧
    (({ c with code := n, changed := b } : Connection).get_room_id title =
      c.get_room_id title) := by
  intro c o title n b
  exact ⟨by cases o <;> rfl, by cases o <;> rfl, rfl⟩

/-- Counterexample for C8: on a transport failure the GET of list_rooms does
not return a non-HTTP sentinel with the error as body; it returns the real
HTTP code 404 with no body at all, unlike genericPOST, which returns the
Python literal False paired with the caught exception. -/
theorem c8_get_transport_counterexample :
    Connection.init.list_rooms ListRoomsOutcome.transportFail = (Connection.init, 404, none) ∧
    Connection.init.genericPOST (PostOutcome.connError "refused") JValue.null =
      (Connection.init, Status.sentinelFalse, Response.exc "refused") :=
  ⟨rfl, rfl⟩

/-- Claim C8 (amended): a transport failure never escapes as an exception;
genericPOST returns the sentinel False with the transport error as body,
while the GET in list_rooms instead returns the literal HTTP code 404 with
an absent body. -/
theorem c8_transport_failure_handling : ∀ (c : Connection) (body : JValue) (e : String),
    c.genericPOST (PostOutcome.connError e) body = (c, Status.sentinelFalse, Response.exc e) ∧
    c.list_rooms ListRoomsOutcome.transportFail = (c, 404, none) :=
  fun _ _ _ => ⟨rfl, rfl⟩

/-- Counterexample for C7: the membership body binds isModerator to the JSON
string "false", which is not the JSON boolean false. -/
theorem c7_moderator_string_counterexample :
    jLookup "isModerator" (addMemberBody (some (JValue.str "X")) "a@b.c") =
      some (JValue.str "false") ∧
    JValue.str "false" ≠ JValue.boolean false :=
  ⟨rfl, fun h => JValue.noConfusion h⟩

/-- Claim C7 (amended): add_room_member POSTs exactly the keys personEmail,
isModerator and roomId, with isModerator bound to the string "false". -/
theorem c7_member_body_fields : ∀ (rid : Option JValue) (email : String),
    jLookup "personEmail" (addMemberBody rid email) = some (JValue.str email) ∧
    jLookup "isModerator" (addMemberBody rid email) = some (JValue.str "false") ∧
    jLookup "roomId" (addMemberBody rid email) = some (optToJ rid) ∧
    (addMemberBody rid email).map Prod.fst = ["personEmail", "isModerator", "roomId"] :=
  fun _ _ => ⟨rfl, rfl, rfl, rfl⟩

/-- Counterexample for C6: a supplied but empty text value is falsy in
Python, so the payload carries no text key even though text was supplied. -/
theorem c6_empty_text_counterexample :
    (some ("" : String)).isSome = true ∧
    hasKey (sendMessagePayload (some (JValue.str "rid1")) (some "") none) "text" = false :=
  ⟨rfl, rfl⟩

/-- Claim C6 (amended): the message payload always carries roomId, carries
text exactly when the text value is truthy (present and nonempty), and
carries file exactly when the file value is truthy; falsy fields produce no
key at all. -/
theorem c6_payload_keys : ∀ (rid : Option JValue) (msg filename : Option String),
    hasKey (sendMessagePayload rid msg filename) "roomId" = true ∧
    hasKey (sendMessagePayload rid msg filename) "text" = optStrTruthy msg ∧
    hasKey (sendMessagePayload rid msg filename) "file" = optStrTruthy filename ∧
    jLookup "roomId" (sendMessagePayload rid msg filename) = some (optToJ rid) := by
  intro rid msg filename
  cases hm : optStrTruthy msg <;> cases hf : optStrTruthy filename <;>
    simp [sendMessagePayload, hasKey, jLookup, hm, hf]

/-- Claim C3: a 403 reply to the membership POST bypasses set_returncode, so
the error tally and the changed flag are left untouched and the raw 403 is
returned to the caller. -/
theorem c3_member_403_untracked : ∀ (c : Connection) (rid : Option JValue)
    (email : String) (parsed : Option JValue) (reason : String),
    ((c.add_room_member (PostOutcome.reply 403 parsed reason) rid email).1.code = c.code) ∧
    ((c.add_room_member (PostOutcome.reply 403 parsed reason) rid email).1.changed = c.changed) ∧
    ((c.add_room_member (PostOutcome.reply 403 parsed reason) rid email).2 =
      some (Status.httpCode 403)) := by
  intro c rid email parsed reason
  cases parsed <;> exact ⟨rfl, rfl, rfl⟩

/-- Claim C4: create_room on an HTTP 200 reply carrying an id sets the
changed flag and returns that id; on any other HTTP status it adds the
status to the error tally and returns an absent value. -/
theorem c4_create_room_outcomes : ∀ (c : Connection) (title reason : String),
    (∀ (body v : JValue), jGet body "id" = some v →
      c.create_room (PostOutcome.reply 200 (some body) reason) title =
        PyResult.ok ({ c with
          changed := true
          response := some (Response.json body) }, some v)) ∧
    (∀ (st : Nat) (parsed : Option JValue), st ≠ 200 →
      ∃ c', c.create_room (PostOutcome.reply st parsed reason) title = PyResult.ok (c', none) ∧
        c'.code = c.code + st ∧ c'.changed = c.changed) := by
  intro c title reason
  constructor
  · intro body v h
    simp [Connection.create_room, Connection.genericPOST, Connection.set_returncode, h]
  · intro st parsed hst
    cases parsed with
    | none =>
      refine ⟨{ c with
        code := c.code + st
        response := some (Response.valueError (synthMsg st reason)) }, ?_, rfl, rfl⟩
      simp [Connection.create_room, Connection.genericPOST, Connection.set_returncode,
        Status.pyInt, hst]
    | some v =>
      refine ⟨{ c with
        code := c.code + st
        response := some (Response.json v) }, ?_, rfl, rfl⟩
      simp [Connection.create_room, Connection.genericPOST, Connection.set_returncode,
        Status.pyInt, hst]

/-- Witness for C4: a 200 reply with body holding id abc123 yields that id
with the changed flag set, and a 500 reply adds 500 to the tally and yields
an absent value. -/
theorem c4_create_room_outcomes_witness :
    (Connection.init.create_room (PostOutcome.reply 200 (some bodyC4) "OK") "foobar" =
      PyResult.ok ({ Connection.init with
        changed := true
        response := some (Response.json bodyC4) }, some (JValue.str "abc123"))) ∧
    (∃ c', Connection.init.create_room (PostOutcome.reply 500 none "Server Error") "foobar" =
      PyResult.ok (c', none) ∧ c'.code = Connection.init.code + 500 ∧
      c'.changed = Connection.init.changed) := by
  constructor
  · exact (c4_create_room_outcomes Connection.init "foobar" "OK").1 bodyC4
      (JValue.str "abc123") rfl
  · exact (c4_create_room_outcomes Connection.init "foobar" "Server Error").2 500 none
      (by decide)

/-- Claim C10: when a 200 reply to the room-creation POST has an unparseable
body, the stored response is the synthesized diagnostic string and the
extraction of its id field faults; the extraction succeeds whenever the 200
body is a JSON object holding key id. -/
theorem c10_create_room_id_extraction : ∀ (c : Connection) (title reason : String),
    (∃ m, c.create_room (PostOutcome.reply 200 none reason) title = PyResult.fault m) ∧
    (∀ (body v : JValue), jGet body "id" = some v →
      ∃ c', c.create_room (PostOutcome.reply 200 (some body) reason) title =
        PyResult.ok (c', some v)) := by
  intro c title reason
  constructor
  · exact ⟨_, rfl⟩
  · intro body v h
    refine ⟨{ c with
      changed := true
      response := some (Response.json body) }, ?_⟩
    simp [Connection.create_room, Connection.genericPOST, Connection.set_returncode, h]

/-- Witness for C10: with a fresh connection, a 200 reply whose body fails to
parse makes create_room fault, while a 200 reply carrying id xyz succeeds. -/
theorem c10_create_room_id_extraction_witness :
    (∃ m, Connection.init.create_room (PostOutcome.reply 200 none "OK") "t" =
      PyResult.fault m) ∧
    (∃ c', Connection.init.create_room (PostOutcome.reply 200 (some bodyC10) "OK") "t" =
      PyResult.ok (c', some (JValue.str "xyz"))) := by
  constructor
  · exact (c10_create_room_id_extraction Connection.init "t" "OK").1
  · exact (c10_create_room_id_extraction Connection.init "t" "OK").2 bodyC10
      (JValue.str "xyz") rfl

/-- Claim C1 evaluated (code bug): a connection-refused membership POST makes
add_room_member add the Python value False, numerically zero, to the tally,
leaving it unchanged; in the concrete scenario pC1 with oC1 the run carries
on to the messaging step (the final response is the message reply and the
changed flag is set by it) yet ends with tally 0 and a success report,
although a transport failure occurred. -/
theorem c1_transport_failure_masked :
    (∀ (c : Connection) (rid : Option JValue) (email e : String),
      ((c.add_room_member (PostOutcome.connError e) rid email).1.code = c.code) ∧
      ((c.add_room_member (PostOutcome.connError e) rid email).2 = none)) ∧
    mainTally pC1 oC1 = some 0 ∧
    mainChanged pC1 oC1 = some true ∧
    mainResponse pC1 oC1 = some (some (Response.json msgBodyC1)) ∧
    (mainReport pC1 oC1).map Report.isSuccess = some true := by
  refine ⟨?_, rfl, rfl, rfl, rfl⟩
  intro c rid email e
  exact ⟨rfl, rfl⟩

/-- Helper: finalReport picks exit_json exactly on a zero tally and carries
the changed flag and last response of the final state. -/
theorem report_shape (s : Connection) :
    (s.code = 0 ∧ finalReport s = Report.exitJson s.changed s.response) ∨
    (s.code ≠ 0 ∧ finalReport s = Report.failJson s.response) := by
  by_cases h0 : s.code = 0
  · exact Or.inl ⟨h0, by simp [finalReport, h0]⟩
  · exact Or.inr ⟨h0, by simp [finalReport, h0]⟩

/-- Claim C2: a completed invocation reports by the tally alone: exit_json
with the changed flag and the last response when the tally is zero, and
fail_json carrying the last response when it is nonzero. -/
theorem c2_report_iff_tally_zero : ∀ (p : Params) (o : Oracle) (c : Connection) (r : Report),
    main p o = PyResult.ok (c, r) →
    ((c.code = 0 ∧ r = Report.exitJson c.changed c.response) ∨
     (c.code ≠ 0 ∧ r = Report.failJson c.response)) := by
  intro p o c r h
  simp only [main] at h
  split at h
  · simp at h
  · injection h with h1
    injection h1 with hc hr
    subst hc
    subst hr
    exact report_shape _

/-- Witness for C2: in the scenario pC2 with oC2 the invocation completes
with state cC2 and the success report dictated by its zero tally. -/
theorem c2_report_iff_tally_zero_witness :
    (cC2.code = 0 ∧ Report.exitJson false none = Report.exitJson cC2.changed cC2.response) ∨
    (cC2.code ≠ 0 ∧ Report.exitJson false none = Report.failJson cC2.response) :=
  c2_report_iff_tally_zero pC2 oC2 cC2 (Report.exitJson false none) rfl

end SparkRoom
